import Mathlib

/-!
Shallow embedding of the kasa_scan repository (kasa_scan.py and
kasa_basic_scan.py) and proofs about its diff engine, device resolver,
energy normalization, discovery decoding and baseline persistence.
-/

namespace KasaScan

/-- A Device Record as built by `discover_devices` in kasa_scan.py
(lines 140-150): the per-device info dict. -/
structure ScanRec where
  name : String
  mac : String
  ip : String
  model : String
  devType : String
  isOn : Option Bool
  rssi : Option Int
  brightness : Option Int
  firmware : Option String
deriving DecidableEq, Repr

/-- Python dict insertion: overwrite the value in place when the key is
already present, otherwise append at the end (insertion order kept). -/
def upsert (m : List (String × ScanRec)) (k : String) (v : ScanRec) :
    List (String × ScanRec) :=
  if m.any (fun p => p.1 == k) then
    m.map (fun p => if p.1 == k then (k, v) else p)
  else m ++ [(k, v)]

/-- Model of the Python dict comprehension of print_diff
(kasa_scan.py lines 398-399): a mac-keyed dict built from a record list,
later entries overwriting earlier ones. -/
def toDict (ds : List ScanRec) : List (String × ScanRec) :=
  ds.foldl (fun m d => upsert m d.mac d) []

/-- kasa_scan.py line 401: current records whose mac is not a baseline key. -/
def newDevs (current baseline : List ScanRec) : List ScanRec :=
  (toDict current).filterMap (fun p =>
    if (List.lookup p.1 (toDict baseline)).isNone then some p.2 else none)

/-- kasa_scan.py line 402: baseline records whose mac is not a current key. -/
def missingDevs (current baseline : List ScanRec) : List ScanRec :=
  (toDict baseline).filterMap (fun p =>
    if (List.lookup p.1 (toDict current)).isNone then some p.2 else none)

/-- kasa_scan.py lines 403-407: pairs (baseline record, current record)
for macs in both dicts whose ip differs. -/
def ipChanges (current baseline : List ScanRec) : List (ScanRec × ScanRec) :=
  (toDict current).filterMap (fun p =>
    match List.lookup p.1 (toDict baseline), List.lookup p.1 (toDict current) with
    | some b, some c => if c.ip = b.ip then none else some (b, c)
    | _, _ => none)

/-- kasa_scan.py lines 408-412: pairs (baseline record, current record)
for macs in both dicts whose name differs. -/
def nameChanges (current baseline : List ScanRec) : List (ScanRec × ScanRec) :=
  (toDict current).filterMap (fun p =>
    match List.lookup p.1 (toDict baseline), List.lookup p.1 (toDict current) with
    | some b, some c => if c.name = b.name then none else some (b, c)
    | _, _ => none)

/-- The parsed baseline file consumed by print_diff. -/
structure BaselineData where
  timestamp : String
  devices : List ScanRec
deriving DecidableEq, Repr

/-- The lines printed by print_diff (kasa_scan.py lines 414-443), with the
current wall-clock timestamp passed in explicitly. -/
def printDiffLines (nowTs : String) (current : List ScanRec)
    (baseline : BaselineData) : List String :=
  let bl := toDict baseline.devices
  let cur := toDict current
  let nd := newDevs current baseline.devices
  let md := missingDevs current baseline.devices
  let ic := ipChanges current baseline.devices
  let nc := nameChanges current baseline.devices
  let header := [s!"Baseline : {baseline.timestamp}  ({bl.length} devices)",
                 s!"Current  : {nowTs}  ({cur.length} devices)", ""]
  if nd.isEmpty && md.isEmpty && ic.isEmpty && nc.isEmpty then
    header ++ ["No changes detected."]
  else
    header
    ++ (if nd.isEmpty then [] else
          s!"  + {nd.length} NEW device(s):"
          :: nd.map (fun d => s!"    + {d.name}  {d.mac}  {d.ip}") ++ [""])
    ++ (if md.isEmpty then [] else
          s!"  - {md.length} MISSING device(s):"
          :: md.map (fun d => s!"    - {d.name}  {d.mac}  was {d.ip}") ++ [""])
    ++ (if ic.isEmpty then [] else
          s!"  ~ {ic.length} IP change(s):"
          :: ic.map (fun oc => s!"    ~ {oc.2.name}: {oc.1.ip} to {oc.2.ip}") ++ [""])
    ++ (if nc.isEmpty then [] else
          s!"  ~ {nc.length} name change(s):"
          :: nc.map (fun oc => s!"    ~ {oc.1.name} to {oc.2.name}  ({oc.2.mac})"))

/-! Spec-side diff definitions, written from the spec's words in section 4.4
(added / removed / ip_changed / name_changed as plain set descriptions on
the record lists), to be compared against the dict-based code. -/

/-- Spec words: records whose mac is absent from the baseline. -/
def specAdded (baseline current : List ScanRec) : List ScanRec :=
  current.filter (fun d => baseline.all (fun b => !(d.mac == b.mac)))

/-- Spec words: baseline records whose mac is absent from current. -/
def specRemoved (baseline current : List ScanRec) : List ScanRec :=
  baseline.filter (fun b => current.all (fun d => !(b.mac == d.mac)))

/-- Spec words: records present in both with differing ip. -/
def specIpChanged (baseline current : List ScanRec) : List (ScanRec × ScanRec) :=
  current.filterMap (fun c =>
    match baseline.find? (fun b => c.mac == b.mac) with
    | some b => if c.ip = b.ip then none else some (b, c)
    | none => none)

/-- Spec words: records present in both with differing name. -/
def specNameChanged (baseline current : List ScanRec) : List (ScanRec × ScanRec) :=
  current.filterMap (fun c =>
    match baseline.find? (fun b => c.mac == b.mac) with
    | some b => if c.name = b.name then none else some (b, c)
    | none => none)

/-! Helper lemmas about the dict model. -/

theorem foldl_upsert_append (ds : List ScanRec) :
    ∀ acc : List (String × ScanRec),
      (∀ d ∈ ds, ∀ p ∈ acc, p.1 ≠ d.mac) →
      (ds.map ScanRec.mac).Nodup →
      ds.foldl (fun m d => upsert m d.mac d) acc
        = acc ++ ds.map (fun d => (d.mac, d)) := by
  induction ds with
  | nil => intro acc _ _; simp
  | cons a rest ih =>
    intro acc hdisj hnodup
    have hany : acc.any (fun p => p.1 == a.mac) = false := by
      rw [List.any_eq_false]
      intro p hp
      simpa using hdisj a (by simp) p hp
    have hstep : upsert acc a.mac a = acc ++ [(a.mac, a)] := by
      simp [upsert, hany]
    rw [List.foldl_cons, hstep]
    rw [List.map_cons, List.nodup_cons] at hnodup
    have hdisj2 : ∀ d ∈ rest, ∀ p ∈ acc ++ [(a.mac, a)], p.1 ≠ d.mac := by
      intro d hd p hp
      rcases List.mem_append.1 hp with h | h
      · exact hdisj d (List.mem_cons_of_mem _ hd) p h
      · simp only [List.mem_singleton] at h
        subst h
        intro heq
        have heq2 : a.mac = d.mac := heq
        exact hnodup.1 (by rw [heq2]; exact List.mem_map_of_mem ScanRec.mac hd)
    rw [ih (acc ++ [(a.mac, a)]) hdisj2 hnodup.2]
    simp

/-- When the macs of a record list are distinct, the Python dict built from
it is just the association list of (mac, record) pairs in order. -/
theorem toDict_eq_map_of_nodup (ds : List ScanRec)
    (h : (ds.map ScanRec.mac).Nodup) :
    toDict ds = ds.map (fun d => (d.mac, d)) := by
  have := foldl_upsert_append ds [] (by intro d _ p hp; simp at hp) h
  simpa [toDict] using this

theorem lookup_map_mac (ds : List ScanRec) (k : String) :
    List.lookup k (ds.map (fun d => (d.mac, d)))
      = ds.find? (fun d => k == d.mac) := by
  induction ds with
  | nil => simp
  | cons a rest ih =>
    by_cases h : k == a.mac
    · simp [List.lookup, List.find?, h]
    · simp only [List.map_cons, List.lookup, List.find?, h]
      exact ih

theorem find?_isNone_eq_all (l : List ScanRec) (p : ScanRec → Bool) :
    (l.find? p).isNone = l.all (fun x => !(p x)) := by
  induction l with
  | nil => simp
  | cons a rest ih =>
    by_cases h : p a
    · simp [List.find?, List.all_cons, h]
    · simp only [List.find?, List.all_cons, h]
      simpa [h] using ih

theorem filterMap_guard_eq_filter (l : List ScanRec) (c : ScanRec → Bool) :
    l.filterMap (fun a => if c a then some a else none) = l.filter c := by
  induction l with
  | nil => simp
  | cons a rest ih =>
    by_cases h : c a
    · simp [List.filterMap_cons, List.filter_cons, h, ih]
    · simp [List.filterMap_cons, List.filter_cons, h, ih]

/-- On a list whose macs are distinct, searching for the mac of a member
finds that member. -/
theorem find?_mac_self (ds : List ScanRec) (d : ScanRec)
    (h : (ds.map ScanRec.mac).Nodup) (hd : d ∈ ds) :
    ds.find? (fun e => d.mac == e.mac) = some d := by
  induction ds with
  | nil => cases hd
  | cons a rest ih =>
    rw [List.map_cons, List.nodup_cons] at h
    rcases List.mem_cons.1 hd with rfl | hmem
    · simp [List.find?]
    · have hne : ¬(d.mac == a.mac) := by
        simp only [beq_iff_eq]
        intro heq
        exact h.1 (heq ▸ List.mem_map_of_mem ScanRec.mac hmem)
      simp only [List.find?, hne]
      simpa [hne] using ih h.2 hmem

theorem mem_of_lookup_eq_some {l : List (String × ScanRec)} {k : String}
    {v : ScanRec} (h : List.lookup k l = some v) : (k, v) ∈ l := by
  induction l with
  | nil => simp [List.lookup] at h
  | cons a rest ih =>
    by_cases hk : k == a.1
    · simp only [List.lookup, hk] at h
      have hk2 : k = a.1 := by simpa using hk
      have hv : a.2 = v := by simpa using h
      cases a
      subst hk2 hv
      exact List.mem_cons_self _ _
    · simp only [List.lookup, hk] at h
      exact List.mem_cons_of_mem _ (ih h)

theorem lookup_isSome_of_mem {l : List (String × ScanRec)}
    {p : String × ScanRec} (h : p ∈ l) : (List.lookup p.1 l).isSome := by
  induction l with
  | nil => cases h
  | cons a rest ih =>
    by_cases hk : p.1 == a.1
    · simp [List.lookup, hk]
    · simp only [List.lookup, hk]
      rcases List.mem_cons.1 h with rfl | hmem
      · simp at hk
      · exact ih hmem

theorem filterMap_congr_mem {α β : Type} {l : List α} {f g : α → Option β}
    (h : ∀ a ∈ l, f a = g a) : l.filterMap f = l.filterMap g := by
  induction l with
  | nil => simp
  | cons a rest ih =>
    rw [List.filterMap_cons, List.filterMap_cons, h a (by simp),
      ih (fun x hx => h x (List.mem_cons_of_mem _ hx))]

/-- Baseline record of the claim's concrete example: mac1 at 10.0.0.5. -/
def blRec : ScanRec :=
  ⟨"Lamp", "AA:BB:CC:DD:EE:01", "10.0.0.5", "HS103", "Plug",
   some true, none, none, none⟩

/-- Current record of the claim's concrete example: same mac at 10.0.0.9. -/
def curRec : ScanRec :=
  ⟨"Lamp", "AA:BB:CC:DD:EE:01", "10.0.0.9", "HS103", "Plug",
   some true, none, none, none⟩

/-- Claim C2: with records keyed by mac (macs distinct within each list, the
spec's identity invariant), print_diff classifies exactly as specified:
added = current records whose mac is absent from the baseline, removed =
baseline records whose mac is absent from current, ip_changed = macs in both
with differing ip, name_changed = macs in both with differing name; and for
baseline mac1@10.0.0.5 versus current mac1@10.0.0.9 it reports exactly one
ip_changed entry and no added or removed entries. -/
theorem c2_diff_classification (current baseline : List ScanRec)
    (hc : (current.map ScanRec.mac).Nodup)
    (hb : (baseline.map ScanRec.mac).Nodup) :
    newDevs current baseline = specAdded baseline current
    ∧ missingDevs current baseline = specRemoved baseline current
    ∧ ipChanges current baseline = specIpChanged baseline current
    ∧ nameChanges current baseline = specNameChanged baseline current
    ∧ ipChanges [curRec] [blRec] = [(blRec, curRec)]
    ∧ newDevs [curRec] [blRec] = []
    ∧ missingDevs [curRec] [blRec] = [] := by
  have hcur := toDict_eq_map_of_nodup current hc
  have hbl := toDict_eq_map_of_nodup baseline hb
  refine ⟨?_, ?_, ?_, ?_, by decide, by decide, by decide⟩
  · rw [newDevs, hcur, List.filterMap_map, specAdded]
    rw [filterMap_congr_mem (g := fun d =>
      if baseline.all (fun b => !(d.mac == b.mac)) then some d else none)
      (by
        intro d _
        simp only [Function.comp]
        rw [hbl, lookup_map_mac, find?_isNone_eq_all])]
    exact filterMap_guard_eq_filter current _
  · rw [missingDevs, hbl, List.filterMap_map, specRemoved]
    rw [filterMap_congr_mem (g := fun b =>
      if current.all (fun d => !(b.mac == d.mac)) then some b else none)
      (by
        intro b _
        simp only [Function.comp]
        rw [hcur, lookup_map_mac, find?_isNone_eq_all])]
    exact filterMap_guard_eq_filter baseline _
  · rw [ipChanges, hcur, hbl, List.filterMap_map, specIpChanged]
    apply filterMap_congr_mem
    intro d hd
    simp only [Function.comp]
    rw [lookup_map_mac, lookup_map_mac, find?_mac_self current d hc hd]
    rcases hf : List.find? (fun b => d.mac == b.mac) baseline with _ | b <;> simp [hf]
  · rw [nameChanges, hcur, hbl, List.filterMap_map, specNameChanged]
    apply filterMap_congr_mem
    intro d hd
    simp only [Function.comp]
    rw [lookup_map_mac, lookup_map_mac, find?_mac_self current d hc hd]
    rcases hf : List.find? (fun b => d.mac == b.mac) baseline with _ | b <;> simp [hf]

/-- Witness for C2 at the claim's concrete example lists. -/
theorem c2_diff_classification_witness :
    ([curRec].map ScanRec.mac).Nodup ∧ ([blRec].map ScanRec.mac).Nodup
    ∧ ipChanges [curRec] [blRec] = specIpChanged [blRec] [curRec]
    ∧ ipChanges [curRec] [blRec] = [(blRec, curRec)] := by
  refine ⟨by decide, by decide, ?_, ?_⟩
  · exact (c2_diff_classification [curRec] [blRec] (by decide) (by decide)).2.2.1
  · exact (c2_diff_classification [curRec] [blRec] (by decide) (by decide)).2.2.2.2.1

/-- Claim C7: diff of a baseline against itself yields empty added, removed,
ip_changed and name_changed, and print_diff reports this outcome explicitly
with a dedicated no-changes line. -/
theorem c7_diff_reflexive (B : List ScanRec) (ts nowTs : String) :
    newDevs B B = [] ∧ missingDevs B B = [] ∧ ipChanges B B = []
    ∧ nameChanges B B = []
    ∧ printDiffLines nowTs B ⟨ts, B⟩ =
      [s!"Baseline : {ts}  ({(toDict B).length} devices)",
       s!"Current  : {nowTs}  ({(toDict B).length} devices)", "",
       "No changes detected."] := by
  have hnew : newDevs B B = [] := by
    rw [newDevs, List.filterMap_eq_nil_iff]
    intro p hp
    have hs := lookup_isSome_of_mem hp
    rcases hx : List.lookup p.1 (toDict B) with _ | v
    · rw [hx] at hs; simp at hs
    · simp [hx]
  have hmiss : missingDevs B B = [] := by
    rw [missingDevs, List.filterMap_eq_nil_iff]
    intro p hp
    have hs := lookup_isSome_of_mem hp
    rcases hx : List.lookup p.1 (toDict B) with _ | v
    · rw [hx] at hs; simp at hs
    · simp [hx]
  have hip : ipChanges B B = [] := by
    rw [ipChanges, List.filterMap_eq_nil_iff]
    intro p _
    rcases hx : List.lookup p.1 (toDict B) with _ | v <;> simp [hx]
  have hname : nameChanges B B = [] := by
    rw [nameChanges, List.filterMap_eq_nil_iff]
    intro p _
    rcases hx : List.lookup p.1 (toDict B) with _ | v <;> simp [hx]
  refine ⟨hnew, hmiss, hip, hname, ?_⟩
  simp [printDiffLines, hnew, hmiss, hip, hname]

/-- Claim C8: the ip_changed and name_changed sets are computed
independently: a mac present in both dicts whose ip differs and whose name
also differs contributes its record pair to both sets simultaneously. -/
theorem c8_changed_sets_independent (current baseline : List ScanRec)
    (mac : String) (b c : ScanRec)
    (hbl : List.lookup mac (toDict baseline) = some b)
    (hcur : List.lookup mac (toDict current) = some c)
    (hip : c.ip ≠ b.ip) (hname : c.name ≠ b.name) :
    (b, c) ∈ ipChanges current baseline
    ∧ (b, c) ∈ nameChanges current baseline := by
  have hmem : (mac, c) ∈ toDict current := mem_of_lookup_eq_some hcur
  constructor
  · rw [ipChanges]
    exact List.mem_filterMap.mpr ⟨(mac, c), hmem, by simp [hbl, hcur, hip]⟩
  · rw [nameChanges]
    exact List.mem_filterMap.mpr ⟨(mac, c), hmem, by simp [hbl, hcur, hname]⟩

/-- Baseline record for the C8 witness: old ip and old name. -/
def c8bl : ScanRec :=
  ⟨"Lamp", "AA:BB:CC:DD:EE:02", "10.0.0.5", "HS103", "Plug",
   some true, none, none, none⟩

/-- Current record for the C8 witness: new ip and new name, same mac. -/
def c8cur : ScanRec :=
  ⟨"Light", "AA:BB:CC:DD:EE:02", "10.0.0.9", "HS103", "Plug",
   some true, none, none, none⟩

/-- Witness for C8: a device that moved and was renamed appears in both
change sets at once. -/
theorem c8_changed_sets_independent_witness :
    (c8bl, c8cur) ∈ ipChanges [c8cur] [c8bl]
    ∧ (c8bl, c8cur) ∈ nameChanges [c8cur] [c8bl] :=
  c8_changed_sets_independent [c8cur] [c8bl] "AA:BB:CC:DD:EE:02" c8bl c8cur
    (by decide) (by decide) (by decide) (by decide)

/-! Device resolver: shallow embedding of _find_device (kasa_scan.py lines
169-220). Network effects are passed in as data: `single` is the outcome of
Discover.discover_single plus dev.update on the identifier taken as an IP
(none when either raised), and `found` is the Discover.discover result, an
ip-keyed map of devices whose update has already been attempted. -/

/-- A discovered device as seen by _find_device: only the alias attribute is
consulted (absent alias modelled as none, matching _safe returning None).
The source attribute name `alias` is a reserved word here. -/
structure KDev where
  devAlias : Option String
deriving DecidableEq, Repr

/-- Result of _find_device: None with a not-found diagnostic, None with the
printed candidate list (ambiguous), or the single matching device. -/
inductive FindResult where
  | notFound : FindResult
  | ambiguous (candidates : List (String × String)) : FindResult
  | foundDev (ip : String) (dev : KDev) : FindResult
deriving DecidableEq, Repr

/-- ASCII lower-casing of a character sequence, as str.lower does. -/
def lowerChars (cs : List Char) : List Char := cs.map Char.toLower

/-- Is the first character sequence an initial segment of the second. -/
def prefixOfChars : List Char → List Char → Bool
  | [], _ => true
  | _ :: _, [] => false
  | a :: as, b :: bs => a == b && prefixOfChars as bs

/-- Python substring test `needle in hay` (contiguous occurrence, the empty
needle occurs in everything). -/
def infixOfChars (needle hay : List Char) : Bool :=
  match hay with
  | [] => needle.isEmpty
  | _ :: rest => prefixOfChars needle hay || infixOfChars needle rest

/-- kasa_scan.py line 193: `(_safe(dev, "alias") or "").lower()`. -/
def aliasLower (d : KDev) : List Char := lowerChars (d.devAlias.getD "").data

/-- kasa_scan.py lines 186-195: the matches list, in discovery order. -/
def findMatches (found : List (String × KDev)) (needle : List Char) :
    List (String × KDev) :=
  found.filter (fun p => infixOfChars needle (aliasLower p.2))

/-- Python str.split(sep) for a single-character separator: cut at every
occurrence, keeping empty segments, one segment even for the empty string. -/
def splitChar (sep : Char) : List Char → List (List Char)
  | [] => [[]]
  | c :: rest =>
    match splitChar sep rest with
    | [] => if c == sep then [[], []] else [[c]]
    | h :: t => if c == sep then [] :: h :: t else (c :: h) :: t

/-- kasa_scan.py lines 173-174: an identifier is treated as an IP address
exactly when splitting on "." gives four all-digit components (Python
str.isdigit: nonempty and every character a digit, restricted to ASCII). -/
def isIpLike (s : String) : Bool :=
  let parts := splitChar '.' s.data
  parts.length == 4 && parts.all (fun p => !p.isEmpty && p.all Char.isDigit)

/-- kasa_scan.py lines 169-220, _find_device as a function of the identifier
and the two network outcomes. -/
def findDevice (nameOrIp : String) (single : Option KDev)
    (found : List (String × KDev)) : FindResult :=
  if isIpLike nameOrIp then
    match single with
    | some d => .foundDev nameOrIp d
    | none => .notFound
  else
    let needle := lowerChars nameOrIp.data
    match findMatches found needle with
    | [] => .notFound
    | [m] => .foundDev m.1 m.2
    | ms => .ambiguous (ms.map (fun p => (p.2.devAlias.getD "Unknown", p.1)))

/-- Claim C1: for a non-IP identifier, _find_device returns not-found when no
discovered alias contains the lowercased identifier as a substring, returns
exactly the matching device when one alias matches, and reports every
candidate's display name and address when two or more match — never an
arbitrary single pick. -/
theorem c1_resolver_classification (nameOrIp : String) (single : Option KDev)
    (found : List (String × KDev)) (hip : isIpLike nameOrIp = false) :
    (findMatches found (lowerChars nameOrIp.data) = [] →
      findDevice nameOrIp single found = .notFound)
    ∧ (∀ ip d, findMatches found (lowerChars nameOrIp.data) = [(ip, d)] →
      findDevice nameOrIp single found = .foundDev ip d)
    ∧ (2 ≤ (findMatches found (lowerChars nameOrIp.data)).length →
      findDevice nameOrIp single found =
        .ambiguous ((findMatches found (lowerChars nameOrIp.data)).map
          (fun p => (p.2.devAlias.getD "Unknown", p.1)))) := by
  refine ⟨?_, ?_, ?_⟩
  · intro h
    simp [findDevice, hip, h]
  · intro ip d h
    simp [findDevice, hip, h]
  · intro h
    rcases hm : findMatches found (lowerChars nameOrIp.data) with _ | ⟨m, rest⟩
    · rw [hm] at h; simp at h
    · rcases rest with _ | ⟨m2, rest2⟩
      · rw [hm] at h; simp at h
      · simp [findDevice, hip, hm]

/-- Witness for C1: with two devices both aliased around "lamp", the
identifier "lamp" is reported ambiguous with both candidates listed. -/
theorem c1_resolver_classification_witness :
    isIpLike "Lamp" = false
    ∧ findDevice "Lamp" none
        [("10.0.0.1", ⟨some "Desk Lamp"⟩), ("10.0.0.2", ⟨some "Floor Lamp"⟩)]
      = .ambiguous [("Desk Lamp", "10.0.0.1"), ("Floor Lamp", "10.0.0.2")] := by
  refine ⟨by decide, ?_⟩
  have h := (c1_resolver_classification "Lamp" none
    [("10.0.0.1", ⟨some "Desk Lamp"⟩), ("10.0.0.2", ⟨some "Floor Lamp"⟩)]
    (by decide)).2.2 (by decide)
  rw [h]
  decide

/-- Claim C10: an identifier is routed to the direct-IP path exactly when
splitting it on "." yields four all-digit components; such an identifier
(including out-of-range ones like "999.0.0.1") is never matched against
device names — the result does not depend on the discovery scan — and a
failure to reach or refresh the host yields not-found with no fallback to a
name search, even when a device name contains the identifier. -/
theorem c10_ip_literal_routing :
    (∀ s, isIpLike s =
      ((splitChar '.' s.data).length == 4
        && (splitChar '.' s.data).all (fun p => !p.isEmpty && p.all Char.isDigit)))
    ∧ (∀ nameOrIp single f1 f2, isIpLike nameOrIp = true →
        findDevice nameOrIp single f1 = findDevice nameOrIp single f2)
    ∧ (∀ nameOrIp found, isIpLike nameOrIp = true →
        findDevice nameOrIp none found = .notFound)
    ∧ isIpLike "999.0.0.1" = true
    ∧ findDevice "999.0.0.1" none
        [("10.0.0.9", ⟨some "sconce 999.0.0.1 left"⟩)] = .notFound := by
  refine ⟨fun s => rfl, ?_, ?_, by decide, ?_⟩
  · intro nameOrIp single f1 f2 h
    simp [findDevice, h]
  · intro nameOrIp found h
    simp [findDevice, h]
  · have h10 : isIpLike "999.0.0.1" = true := by decide
    simp [findDevice, h10]

/-- Witness for C10: the direct-IP route at a concrete unreachable literal. -/
theorem c10_ip_literal_routing_witness :
    isIpLike "999.0.0.1" = true
    ∧ findDevice "999.0.0.1" none [("10.0.0.9", ⟨some "999.0.0.1"⟩)]
      = .notFound := by
  refine ⟨c10_ip_literal_routing.2.2.2.1, ?_⟩
  exact c10_ip_literal_routing.2.2.1 "999.0.0.1"
    [("10.0.0.9", ⟨some "999.0.0.1"⟩)] c10_ip_literal_routing.2.2.2.1

/-! Energy telemetry: shallow embedding of _get_energy (kasa_scan.py lines
75-108), dict branch. The emeter_realtime dict is modelled as an association
list of numeric readings (Python JSON numbers as rationals). -/

/-- Energy metrics dict initialised at kasa_scan.py lines 77-82. -/
structure Energy where
  power_w : Option ℚ
  voltage_v : Option ℚ
  current_a : Option ℚ
  total_kwh : Option ℚ
deriving DecidableEq, Repr

/-- Floor of a rational (denominator is positive, so Euclidean division of
the numerator by it is the floor). -/
def ratFloor (q : ℚ) : ℤ := q.num.ediv (q.den : ℤ)

/-- Python round-half-to-even on a rational, to an integer. -/
def roundHalfEven (q : ℚ) : ℤ :=
  let f := ratFloor q
  let r := q - (f : ℚ)
  if r < 1 / 2 then f
  else if 1 / 2 < r then f + 1
  else if f % 2 = 0 then f else f + 1

/-- Python round(x, n) on a rational. -/
def pyRound (q : ℚ) (n : ℕ) : ℚ := (roundHalfEven (q * 10 ^ n) : ℚ) / 10 ^ n

/-- kasa_scan.py lines 87-100: for each metric take the milli-unit key if
present else the plain key, and divide by 1000 (with the per-field rounding
width) only when the milli-unit key exists. -/
def getEnergyDict (rt : List (String × ℚ)) : Energy :=
  let p0 := (List.lookup "power_mw" rt).orElse (fun _ => List.lookup "power" rt)
  let pw := match p0 with
    | some v =>
      if (List.lookup "power_mw" rt).isSome then some (pyRound (v / 1000) 2)
      else some v
    | none => none
  let v0 := (List.lookup "voltage_mv" rt).orElse
    (fun _ => List.lookup "voltage" rt)
  let vv := match v0 with
    | some v =>
      if (List.lookup "voltage_mv" rt).isSome then some (pyRound (v / 1000) 1)
      else some v
    | none => none
  let c0 := (List.lookup "current_ma" rt).orElse
    (fun _ => List.lookup "current" rt)
  let ca := match c0 with
    | some v =>
      if (List.lookup "current_ma" rt).isSome then some (pyRound (v / 1000) 3)
      else some v
    | none => none
  let t0 := (List.lookup "total_wh" rt).orElse
    (fun _ => List.lookup "total" rt)
  let tk := match t0 with
    | some v =>
      if (List.lookup "total_wh" rt).isSome then some (pyRound (v / 1000) 3)
      else some v
    | none => none
  ⟨pw, vv, ca, tk⟩

/-- Claim C5: milli-unit raw readings are divided by 1000 before entering
the record (raw power_mw 1500 becomes 1.5 W, raw voltage_mv 120000 becomes
120.0 V), while readings under the plain watt/volt keys pass through
unscaled. -/
theorem c5_energy_normalization :
    (getEnergyDict [("power_mw", 1500)]).power_w = some ((3 : ℚ) / 2)
    ∧ (getEnergyDict [("voltage_mv", 120000)]).voltage_v = some (120 : ℚ)
    ∧ (∀ rt p, List.lookup "power_mw" rt = none →
        List.lookup "power" rt = some p →
        (getEnergyDict rt).power_w = some p)
    ∧ (∀ rt v, List.lookup "voltage_mv" rt = none →
        List.lookup "voltage" rt = some v →
        (getEnergyDict rt).voltage_v = some v) := by
  refine ⟨by norm_num [getEnergyDict, List.lookup, pyRound, roundHalfEven,
      ratFloor, Option.orElse],
    by norm_num [getEnergyDict, List.lookup, pyRound, roundHalfEven,
      ratFloor, Option.orElse], ?_, ?_⟩
  · intro rt p hmw hp
    simp [getEnergyDict, hmw, hp, Option.orElse]
  · intro rt v hmv hv
    simp [getEnergyDict, hmv, hv, Option.orElse]

/-- Witness for C5: a device reporting plain watts and volts keeps the raw
values. -/
theorem c5_energy_normalization_witness :
    (getEnergyDict [("power", 7), ("voltage", 120)]).power_w = some (7 : ℚ)
    ∧ (getEnergyDict [("power", 7), ("voltage", 120)]).voltage_v
      = some (120 : ℚ) :=
  ⟨c5_energy_normalization.2.2.1 [("power", 7), ("voltage", 120)] 7
      (by decide) (by decide),
   c5_energy_normalization.2.2.2 [("power", 7), ("voltage", 120)] 120
      (by decide) (by decide)⟩

/-! Record construction in discover_devices (kasa_scan.py lines 134-155).
The python-kasa device handle is modelled by its attributes after the
update attempt; _safe(dev, attr, default) is Option.getD. -/

/-- A python-kasa device handle as read by discover_devices: each attribute
may be absent (None), in which case _safe substitutes the default.
The source attribute names alias and device_type are adjusted for Lean. -/
structure SDev where
  devAlias : Option String
  mac : Option String
  model : Option String
  devType : Option String
  isOn : Option Bool
  rssi : Option Int
  brightness : Option Int
  firmware : Option String
deriving DecidableEq, Repr

/-- kasa_scan.py lines 54-56: drop the DeviceType. prefix of the type name. -/
def cleanType (raw : String) : String := raw.replace "DeviceType." ""

/-- kasa_scan.py lines 140-150: the info dict for one discovered device. -/
def mkInfo (ip : String) (dev : SDev) : ScanRec :=
  { name := dev.devAlias.getD "Unknown"
  , mac := dev.mac.getD "Unknown"
  , ip := ip
  , model := dev.model.getD "Unknown"
  , devType := cleanType (dev.devType.getD "Unknown")
  , isOn := dev.isOn
  , rssi := dev.rssi
  , brightness := dev.brightness
  , firmware := dev.firmware }

/-- An uppercase hexadecimal digit. -/
def isHexUpper (c : Char) : Bool := c.isDigit || ('A' ≤ c && c ≤ 'F')

/-- The spec's canonical mac form: six colon-separated octets of uppercase
hex digits. -/
def isCanonicalMac (s : String) : Bool :=
  let parts := splitChar ':' s.data
  parts.length == 6 && parts.all (fun p => p.length == 2 && p.all isHexUpper)

/-- A device whose handle reports no mac attribute at all. -/
def devNoMac : SDev := ⟨some "Office Sconce", none, some "HS200", some "Plug",
  some true, none, none, none⟩

/-- A device reporting a lowercase mac. -/
def devLowerMac : SDev := ⟨some "Office Sconce", some "aa:bb:cc:dd:ee:0f",
  some "HS200", some "Plug", some true, none, none, none⟩

/-- Counterexample to claim C3: discover_devices performs no mac
canonicalization — a device without a mac attribute yields the record mac
"Unknown", and a lowercase reported mac is stored lowercase; neither is in
uppercase colon-separated form. -/
theorem c3_mac_not_canonical_counterexample :
    (mkInfo "10.0.0.5" devNoMac).mac = "Unknown"
    ∧ isCanonicalMac (mkInfo "10.0.0.5" devNoMac).mac = false
    ∧ (mkInfo "10.0.0.6" devLowerMac).mac = "aa:bb:cc:dd:ee:0f"
    ∧ isCanonicalMac (mkInfo "10.0.0.6" devLowerMac).mac = false := by
  refine ⟨rfl, by decide, rfl, by decide⟩

/-- Claim C3 as amended: a Device Record's mac is the value reported by the
device copied verbatim, with "Unknown" substituted when the attribute is
absent; no uppercase or colon canonicalization is applied, so the canonical
form holds only when the device already reports it. -/
theorem c3_mac_passthrough (ip : String) (dev : SDev) :
    (mkInfo ip dev).mac = dev.mac.getD "Unknown"
    ∧ isCanonicalMac (mkInfo ip dev).mac
      = isCanonicalMac (dev.mac.getD "Unknown") := ⟨rfl, rfl⟩

/-! Discovery reply decoding: shallow embedding of the receive loop body of
discover_kasa_devices (kasa_basic_scan.py lines 42-62). JSON values are a
small inductive; json.loads is an input parameter (an external library
function), applied to the raw payload bytes or to their XOR image. -/

/-- A parsed JSON value. -/
inductive Json where
  | null : Json
  | bool (b : Bool) : Json
  | num (q : ℚ) : Json
  | str (s : String) : Json
  | arr (xs : List Json) : Json
  | obj (kvs : List (String × Json)) : Json

/-- Python `key in value`: key membership for a dict, element equality for a
list, substring for a string; a TypeError (error) otherwise. -/
def pyIn (s : String) : Json → Except Unit Bool
  | .obj kvs => .ok (kvs.any (fun kv => kv.1 == s))
  | .arr xs => .ok (xs.any (fun j => match j with
      | .str t => t == s
      | _ => false))
  | .str t => .ok (infixOfChars s.data t.data)
  | _ => .error ()

/-- Python `value[key]`: dict indexing; KeyError or TypeError otherwise. -/
def pyGetItem : Json → String → Except Unit Json
  | .obj kvs, s =>
    match List.lookup s kvs with
    | some v => .ok v
    | none => .error ()
  | _, _ => .error ()

/-- Python `value.get(key, default)`: only dicts have .get
(AttributeError otherwise). -/
def pyGetDefault : Json → String → Json → Except Unit Json
  | .obj kvs, s, dflt => .ok ((List.lookup s kvs).getD dflt)
  | _, _, _ => .error ()

/-- A device entry appended by discover_kasa_devices: ip with the mac and
alias values taken from the reply. -/
structure BasicRec where
  ip : String
  mac : Json
  devAlias : Json

/-- kasa_basic_scan.py line 45: XOR every payload byte with the key 0xAB. -/
def xorBytes (data : List Nat) : List Nat := data.map (fun b => b ^^^ 0xAB)

/-- kasa_basic_scan.py lines 48-52, the body of the first try block after
json.loads succeeded: ok (some r) appends a record, ok none falls through
silently (condition false), error models a raised exception which the
enclosing except routes to the plain-JSON attempt. -/
def legacyStep (ip : String) (info : Json) : Except Unit (Option BasicRec) := do
  let b1 ← pyIn "system" info
  if b1 then
    let sys0 ← pyGetItem info "system"
    let b2 ← pyIn "get_sysinfo" sys0
    if b2 then
      let sys1 ← pyGetItem info "system"
      let sysinfo ← pyGetItem sys1 "get_sysinfo"
      let a ← pyGetDefault sysinfo "alias" (Json.str "Unknown")
      let m ← pyGetDefault sysinfo "mac" (Json.str "Unknown")
      return some ⟨ip, m, a⟩
    else
      return none
  else
    return none

/-- kasa_basic_scan.py lines 54-62: the plain-JSON fallback; any failure
inside it (parse, membership, indexing) is swallowed and the reply dropped. -/
def plainStep (loads : List Nat → Option Json) (ip : String)
    (data : List Nat) : Option BasicRec :=
  match loads data with
  | none => none
  | some info =>
    match (do
      let b ← pyIn "result" info
      if b then
        let res ← pyGetItem info "result"
        let a ← pyGetDefault res "device_alias" (Json.str "Unknown")
        let m ← pyGetDefault res "mac" (Json.str "Unknown")
        return some (⟨ip, m, a⟩ : BasicRec)
      else
        return none : Except Unit (Option BasicRec)) with
    | .ok r => r
    | .error _ => none

/-- kasa_basic_scan.py lines 42-62: decode one reply. The legacy attempt
XORs the payload and parses it; an exception anywhere in that attempt is
caught and the plain-JSON attempt runs instead; a falsy sysinfo condition
drops the reply without raising. -/
def decodeReply (loads : List Nat → Option Json) (ip : String)
    (data : List Nat) : Option BasicRec :=
  match loads (xorBytes data) with
  | none => plainStep loads ip data
  | some info =>
    match legacyStep ip info with
    | .ok r => r
    | .error _ => plainStep loads ip data

/-- The records appended over one receive loop: one decode attempt per
reply, dropped replies contributing nothing. -/
def processReplies (loads : List Nat → Option Json)
    (replies : List (String × List Nat)) : List BasicRec :=
  replies.filterMap (fun r => decodeReply loads r.1 r.2)

/-- Payload of the well-formed legacy reply in the concrete round. -/
def c4good : List Nat := [0, 1]

/-- Payload of the reply that fails both decodings. -/
def c4bad : List Nat := [5, 6]

/-- The sysinfo object the good payload decodes to. -/
def c4json : Json :=
  .obj [("system", .obj [("get_sysinfo", .obj
    [("alias", .str "Office Sconce Left"),
     ("mac", .str "98:25:4A:5F:4E:6F")])])]

/-- A concrete json.loads outcome table: only the XOR image of the good
payload parses; the bad payload parses neither raw nor XORed. -/
def c4loads (bs : List Nat) : Option Json :=
  if bs = [171, 170] then some c4json else none

/-- The record the good reply yields. -/
def c4rec : BasicRec :=
  ⟨"10.0.0.23", .str "98:25:4A:5F:4E:6F", .str "Office Sconce Left"⟩

/-- Claim C4: replies are decoded legacy-first — when the XORed payload
parses and carries system.get_sysinfo the legacy record is used regardless
of the raw payload; when the XORed payload does not parse, the plain-JSON
attempt decides; when both fail the reply is dropped as none; and a round
with one well-formed legacy reply and one doubly-malformed reply yields
exactly that one record. -/
theorem c4_decode_priority :
    (∀ loads ip data info r, loads (xorBytes data) = some info →
        legacyStep ip info = .ok (some r) →
        decodeReply loads ip data = some r)
    ∧ (∀ loads ip data, loads (xorBytes data) = none →
        decodeReply loads ip data = plainStep loads ip data)
    ∧ (∀ loads ip data, loads (xorBytes data) = none → loads data = none →
        decodeReply loads ip data = none)
    ∧ processReplies c4loads [("10.0.0.23", c4good), ("10.0.0.77", c4bad)]
      = [c4rec] := by
  refine ⟨?_, ?_, ?_, rfl⟩
  · intro loads ip data info r hl hleg
    rw [decodeReply, hl]
    simp only [hleg]
  · intro loads ip data hl
    rw [decodeReply, hl]
  · intro loads ip data hl hraw
    rw [decodeReply, hl, plainStep, hraw]

/-- Witness for C4: the concrete loads table exercises the legacy-success
clause and the both-fail clause. -/
theorem c4_decode_priority_witness :
    c4loads (xorBytes c4good) = some c4json
    ∧ decodeReply c4loads "10.0.0.23" c4good = some c4rec
    ∧ decodeReply c4loads "10.0.0.77" c4bad = none :=
  ⟨rfl,
   c4_decode_priority.1 c4loads "10.0.0.23" c4good c4json c4rec rfl rfl,
   c4_decode_priority.2.2.1 c4loads "10.0.0.77" c4bad rfl rfl⟩

/-! Baseline persistence: save_baseline / load_baseline (kasa_scan.py lines
381-394). The baseline file is modelled as an optional stored JSON value
(none = file absent); json.dumps/json.loads of the structured record are
modelled by the Json encoding of the device dicts. -/

/-- Encoding of an optional field: JSON null when absent. -/
def encOpt {α : Type} (f : α → Json) : Option α → Json
  | none => .null
  | some a => f a

/-- The JSON image of one Device Record dict. -/
def encodeScanRec (r : ScanRec) : Json :=
  .obj [("name", .str r.name), ("mac", .str r.mac), ("ip", .str r.ip),
        ("model", .str r.model), ("type", .str r.devType),
        ("is_on", encOpt Json.bool r.isOn),
        ("rssi", encOpt (fun i => Json.num (i : ℚ)) r.rssi),
        ("brightness", encOpt (fun i => Json.num (i : ℚ)) r.brightness),
        ("firmware", encOpt Json.str r.firmware)]

/-- Key access on a JSON object. -/
def jGet (j : Json) (k : String) : Option Json :=
  match j with
  | .obj kvs => List.lookup k kvs
  | _ => none

/-- A JSON string value. -/
def decStr : Json → Option String
  | .str s => some s
  | _ => none

/-- A JSON bool-or-null value. -/
def decOptBool : Json → Option (Option Bool)
  | .null => some none
  | .bool b => some (some b)
  | _ => none

/-- A JSON integer-or-null value. -/
def decOptInt : Json → Option (Option Int)
  | .null => some none
  | .num q => if q.den = 1 then some (some q.num) else none
  | _ => none

/-- A JSON string-or-null value. -/
def decOptStr : Json → Option (Option String)
  | .null => some none
  | .str s => some (some s)
  | _ => none

/-- Reading one Device Record back out of its JSON image. -/
def decodeScanRec (j : Json) : Option ScanRec := do
  let name ← jGet j "name" >>= decStr
  let mac ← jGet j "mac" >>= decStr
  let ip ← jGet j "ip" >>= decStr
  let model ← jGet j "model" >>= decStr
  let ty ← jGet j "type" >>= decStr
  let o ← jGet j "is_on" >>= decOptBool
  let rs ← jGet j "rssi" >>= decOptInt
  let br ← jGet j "brightness" >>= decOptInt
  let fw ← jGet j "firmware" >>= decOptStr
  return ⟨name, mac, ip, model, ty, o, rs, br, fw⟩

/-- save_baseline (kasa_scan.py lines 381-388): overwrite the baseline file
with the object holding the timestamp and the device list. -/
def save_baseline (ts : String) (devices : List ScanRec)
    (_store : Option Json) : Option Json :=
  some (.obj [("timestamp", .str ts),
              ("devices", .arr (devices.map encodeScanRec))])

/-- load_baseline (kasa_scan.py lines 391-394): none when the baseline file
does not exist, else its parsed content. -/
def load_baseline (store : Option Json) : Option Json := store

theorem decode_encode_scanRec (r : ScanRec) :
    decodeScanRec (encodeScanRec r) = some r := by
  obtain ⟨n, m, i, mo, ty, o, rs, br, fw⟩ := r
  cases o <;> cases rs <;> cases br <;> cases fw <;>
    simp [decodeScanRec, encodeScanRec, jGet, List.lookup, decStr,
      decOptBool, decOptInt, decOptStr, encOpt, Rat.den_intCast]

theorem mapM_loop_decode (devices : List ScanRec) :
    ∀ acc : List ScanRec,
      List.mapM.loop decodeScanRec (devices.map encodeScanRec) acc
        = some (acc.reverse ++ devices) := by
  induction devices with
  | nil => intro acc; simp [List.mapM.loop]
  | cons a rest ih =>
    intro acc
    simp [List.mapM.loop, decode_encode_scanRec, ih]

theorem mapM_decode_encode (devices : List ScanRec) :
    (devices.map encodeScanRec).mapM decodeScanRec = some devices := by
  simpa [List.mapM] using mapM_loop_decode devices []

/-- Claim C9: saving a baseline and loading it back (with no intervening
command) returns exactly the saved timestamp and device list, the record
list decoding unmodified; loading when nothing was ever saved returns the
distinguished missing-baseline outcome none. -/
theorem c9_baseline_roundtrip :
    (∀ ts devices store,
      load_baseline (save_baseline ts devices store)
        = some (.obj [("timestamp", .str ts),
                      ("devices", .arr (devices.map encodeScanRec))]))
    ∧ (∀ ts devices store j,
        load_baseline (save_baseline ts devices store) = some j →
        jGet j "timestamp" = some (.str ts)
        ∧ (jGet j "devices").map (fun dj =>
            match dj with
            | .arr xs => xs.mapM decodeScanRec
            | _ => none) = some (some devices))
    ∧ load_baseline none = none := by
  refine ⟨fun ts devices store => rfl, ?_, rfl⟩
  intro ts devices store j h
  have hj : j = .obj [("timestamp", .str ts),
      ("devices", .arr (devices.map encodeScanRec))] := by
    simpa [load_baseline, save_baseline] using h.symm
  subst hj
  refine ⟨rfl, ?_⟩
  simp only [jGet, List.lookup, mapM_decode_encode]
  simp [mapM_loop_decode, List.mapM]

/-- Witness for C9: a one-device baseline round-trips through the store. -/
theorem c9_baseline_roundtrip_witness :
    jGet (Json.obj [("timestamp", .str "2025-01-01T00:00:00+00:00"),
        ("devices", .arr ([blRec].map encodeScanRec))]) "timestamp"
      = some (.str "2025-01-01T00:00:00+00:00")
    ∧ load_baseline none = none := by
  refine ⟨?_, c9_baseline_roundtrip.2.2⟩
  exact ((c9_baseline_roundtrip.2.1 "2025-01-01T00:00:00+00:00" [blRec]
    none _ rfl).1)

end KasaScan
